import Mathlib

/-!
Verification model of the provisioner boot-environment engine
(`bootenv.go` of Meshiest/provisioner-mgmt).

The Go code performs filesystem writes, template rendering, ISO
extraction, HTTP downloads and record-store queries.  We embed it
shallowly:

* the filesystem is an association list from paths to file contents
  (only regular files are modelled; directory creation always succeeds);
* Go `path.Clean` / `path.Join` / `filepath.Join` (on Unix, identical to
  `path.Join`) are ported faithfully;
* a compiled text/template is abstracted as a Lean function from the
  machine being rendered to `Except Unit String` (the template either
  produces a string or fails); whether a template source compiles, and
  whether a content template can be loaded from the backend store, are
  modelled as boolean fields on `TemplateInfo`;
* SHA-256 hashing, HTTP GET and the external `/explode_iso.sh` script
  are oracles carried by the `World` state;
* every observable action (rendering a path template, creating,
  writing or removing a file, hashing an ISO, invoking extraction,
  performing an HTTP request) is recorded in an event trace, so that
  ordering claims ("X happens before Y") are statable.

Functions keep the Go names (`RenderTemplates`, `explode_iso`,
`onChange`, ...).
-/

namespace Provisioner

/-! ### String helpers

`String.startsWith`, `String.endsWith` and `String.splitOn` are
implemented in core over substrings and positions and do not reduce
inside the kernel, so the model re-implements them structurally over
the underlying character lists (with the separator fixed to '/' for
`splitOn`, the only separator the Go code uses). -/

/-- `s.startsWith pre`, computed on the character lists. -/
def strStartsWith (s pre : String) : Bool := pre.data.isPrefixOf s.data

/-- `s.endsWith suf`, computed on the character lists. -/
def strEndsWith (s suf : String) : Bool := suf.data.isSuffixOf s.data

/-- `strings.Split(s, "/")` on the character list. -/
def splitSlashChars : List Char → List (List Char)
  | [] => [[]]
  | c :: rest =>
    let r := splitSlashChars rest
    if c = '/' then [] :: r
    else
      match r with
      | [] => [[c]]
      | seg :: segs => (c :: seg) :: segs

/-- `s.splitOn "/"`. -/
def splitOnSlash (s : String) : List String := (splitSlashChars s.data).map String.mk

/-! ### Go path.Clean / path.Join -/

/-- Concatenation of path elements with "/" separators
(`strings.Join(elems, "/")`). -/
def joinSlash : List String → String
  | [] => ""
  | a :: rest => rest.foldl (fun acc s => acc ++ "/" ++ s) a

/-- One step of Go `path.Clean`'s segment processing: skip empty and
"." segments, let ".." pop a previous real segment (or accumulate at
the front of a relative path, or vanish at the root of an absolute
path), and push any other segment.  The stack is kept in reverse
order (`head` = last segment). -/
def cleanStep (rooted : Bool) (stack : List String) (seg : String) : List String :=
  if seg = "" ∨ seg = "." then stack
  else if seg = ".." then
    match stack with
    | [] => if rooted then [] else [".."]
    | top :: rest => if top = ".." then seg :: top :: rest else rest
  else seg :: stack

/-- The cleaned path body: segments of `p` pushed through `cleanStep`
and joined back with "/". -/
def pathCleanBody (rooted : Bool) (p : String) : String :=
  joinSlash (((splitOnSlash p).foldl (cleanStep rooted) []).reverse)

/-- Go `path.Clean`: lexical simplification of a slash-separated path.
Returns "." for an empty result of a relative path and "/" for an
empty result of an absolute path. -/
def pathClean (p : String) : String :=
  if p = "" then "."
  else if strStartsWith p "/" then
    (if pathCleanBody true p = "" then "/" else "/" ++ pathCleanBody true p)
  else
    (if pathCleanBody false p = "" then "." else pathCleanBody false p)

/-- Go `path.Join` (and `filepath.Join` on Unix): drop leading empty
elements, join the rest with "/", and `Clean` the result; all elements
empty yields "". -/
def goPathJoin (elems : List String) : String :=
  match elems.dropWhile (fun e => e == "") with
  | [] => ""
  | rest => pathClean (joinSlash rest)

/-- Go `path.Dir`: everything up to and including the final slash,
cleaned; "." when the path contains no slash. -/
def pathDir (p : String) : String :=
  let segs := splitOnSlash p
  if segs.length ≤ 1 then "." else pathClean (joinSlash segs.dropLast ++ "/")

/-! ### Data model (bootenv.go structs) -/

/-- `FileData`: an auxiliary file referenced by an OS descriptor. -/
structure FileData where
  URL : String
  Name : String
  ValidationURL : String
  ValidationMethod : String
  deriving DecidableEq, Repr

/-- `Machine` (declared outside bootenv.go; the fields used by
bootenv.go are its name, the name of the boot environment it is bound
to, and its parameter map). -/
structure Machine where
  Name : String
  BootEnv : String
  Params : List (String × String)
  deriving DecidableEq, Repr

/-- `TemplateInfo`: one template of a boot environment.  `Name`,
`Path` (raw path-template source) and `UUID` are the serialized Go
fields.  `pathCompiles` models whether `template.Parse` succeeds on
`Path`; `pathRun` is the compiled path template's behaviour on a
machine; `contentOK` models whether `backend.load` + `Parse` succeed
for the content template `UUID`; `contentRun` is the compiled content
template's behaviour.  (A compiled template is abstracted as a
function of the machine only: the environment, provisioner URL and
command URL a Go template can also reference are fixed for the
`BootEnv` owning this `TemplateInfo`, so any dependence on them is
folded into the function.) -/
structure TemplateInfo where
  Name : String
  Path : String
  UUID : String
  pathCompiles : Bool
  pathRun : Machine → Except Unit String
  contentOK : Bool
  contentRun : Machine → Except Unit String

/-- `OsInfo`: operating-system descriptor of a boot environment. -/
structure OsInfo where
  Name : String
  Family : String
  Codename : String
  Version : String
  IsoFile : String
  IsoSha256 : String
  IsoUrl : String
  Files : List FileData

/-- `BootEnv`.  `bootParamsCompiles` models whether the `BootParams`
template source parses. -/
structure BootEnv where
  Name : String
  OS : OsInfo
  Templates : List TemplateInfo
  Kernel : String
  Initrds : List String
  BootParams : String
  RequiredParams : List String
  bootParamsCompiles : Bool
  TenantId : Nat

/-- Decidable equality of `Except` values (core provides none), so
that results of the modelled operations can be evaluated by
`decide`. -/
instance {ε α : Type} [DecidableEq ε] [DecidableEq α] : DecidableEq (Except ε α) := fun a b =>
  match a, b with
  | Except.ok x, Except.ok y =>
    if h : x = y then Decidable.isTrue (by rw [h])
    else Decidable.isFalse (fun hc => h (Except.ok.inj hc))
  | Except.ok _, Except.error _ => Decidable.isFalse (fun hc => Except.noConfusion hc)
  | Except.error _, Except.ok _ => Decidable.isFalse (fun hc => Except.noConfusion hc)
  | Except.error x, Except.error y =>
    if h : x = y then Decidable.isTrue (by rw [h])
    else Decidable.isFalse (fun hc => h (Except.error.inj hc))

/-! ### Errors, events and the world state -/

/-- Error taxonomy: one constructor per distinct error return of
bootenv.go, carrying the data the Go error message interpolates. -/
inductive RErr where
  | pathCompile (name : String)
  | contentLoad (uuid name : String)
  | contentCompile (name : String)
  | bootParamsCompile
  | pathRender (name : String)
  | missingRequiredParams (env mach : String) (missing : List String)
  | contentRender (name : String)
  | illegalTemplate (name : String)
  | incompleteBootSupport
  | checksumMismatch (iso actual expected : String)
  | extractFail
  | fileFetchFail (name : String)
  | validateFail (path : String)
  | missingKernel (env kernel : String)
  | missingInitrd (env initrd : String)
  | renameForbidden
  | envInUse (env mach : String)
  deriving DecidableEq, Repr

/-- Observable actions, recorded in order in the world's trace. -/
inductive Ev where
  | renderPath (tmplName : String)
  | createFile (path : String)
  | renderContent (tmplName : String)
  | removeFile (path : String)
  | hashISO (path : String)
  | extractISO (osName isoPath dir : String)
  | httpGet (url : String)
  deriving DecidableEq, Repr

/-- Outcome of an HTTP download (`http.Get` + `io.Copy` in
`get_file`): either the full body, or a failure after zero or more
bytes were already copied into the destination file. -/
inductive HttpOutcome where
  | ok (body : String)
  | fail (written : String)

/-- World state: the filesystem (association list from path to file
content; the first binding for a path wins), the event trace, the
machine records the external store returns from `machine.List()`, and
oracles for HTTP, SHA-256 and the external extraction script. -/
structure World where
  fs : List (String × String)
  events : List Ev
  machines : List Machine
  http : String → HttpOutcome
  hashFn : String → String
  extractOK : Bool

/-- Create or truncate a file (`os.Create`): the new binding shadows
any previous one. -/
def fsSet (fs : List (String × String)) (p v : String) : List (String × String) :=
  (p, v) :: fs

/-- Remove a file (`os.Remove`). -/
def fsErase (fs : List (String × String)) (p : String) : List (String × String) :=
  fs.filter (fun e => !(e.1 == p))

/-! ### Path resolution (PathFor, lines 129-145) -/

/-- The OS-install segment computed at the top of `PathFor`: the OS
name, with "install" joined on unless the OS name is the sentinel
"discovery". -/
def installSeg (b : BootEnv) : String :=
  if b.OS.Name ≠ "discovery" then goPathJoin [b.OS.Name, "install"] else b.OS.Name

/-- `PathFor`: expand a partial path for one of the protocols "disk",
"tftp", "http".  Any other protocol hits `logger.Fatalf`, which kills
the process; the model returns `none` for it. -/
def PathFor (fileRoot provisionerURL : String) (b : BootEnv) (proto f : String) :
    Option String :=
  let res := installSeg b
  match proto with
  | "disk" => some (goPathJoin [fileRoot, res, f])
  | "tftp" => some (goPathJoin [res, f])
  | "http" => some (provisionerURL ++ "/" ++ goPathJoin [res, f])
  | _ => none

/-- The "disk" branch of `PathFor`, used internally by `explode_iso`,
`get_file`, `validate_file` and `onChange`. -/
def pathForDisk (fileRoot : String) (b : BootEnv) (f : String) : String :=
  goPathJoin [fileRoot, installSeg b, f]

/-! ### Template compilation (parseTemplates, lines 147-185) -/

/-- The per-template part of `parseTemplates`: fail on the first
template whose path source does not compile or whose content template
cannot be loaded/compiled. -/
def parseTemplatesList : List TemplateInfo → Except RErr Unit
  | [] => Except.ok ()
  | t :: rest =>
    if ¬ t.pathCompiles then Except.error (RErr.pathCompile t.Name)
    else if ¬ t.contentOK then Except.error (RErr.contentLoad t.UUID t.Name)
    else parseTemplatesList rest

/-- `parseTemplates`: compile every template of the environment, then
the boot-parameters template (only when `BootParams` is non-empty). -/
def parseTemplates (b : BootEnv) : Except RErr Unit :=
  match parseTemplatesList b.Templates with
  | Except.error e => Except.error e
  | Except.ok _ =>
    if b.BootParams ≠ "" ∧ ¬ b.bootParamsCompiles then Except.error RErr.bootParamsCompile
    else Except.ok ()

/-! ### Path rendering (RenderPaths, lines 210-228) -/

/-- The loop of `RenderPaths`: execute each template's compiled path
template in order; on failure return the error; on success record
`filepath.Join(fileRoot, rendered)` as the template's final path.
Each execution of a path template is traced. -/
def renderPathsLoop (fileRoot : String) (m : Machine) :
    List TemplateInfo → World → Except RErr (List String) × World
  | [], w => (Except.ok [], w)
  | t :: rest, w =>
    match t.pathRun m with
    | Except.error _ =>
      (Except.error (RErr.pathRender t.Name),
       { w with events := w.events ++ [Ev.renderPath t.Name] })
    | Except.ok s =>
      match renderPathsLoop fileRoot m rest { w with events := w.events ++ [Ev.renderPath t.Name] } with
      | (Except.error e, w2) => (Except.error e, w2)
      | (Except.ok ps, w2) => (Except.ok (goPathJoin [fileRoot, s] :: ps), w2)

/-- `RenderPaths`: render the destination paths of all templates of
`b` for `m`.  On success the returned list holds the final path of
each template, in order. -/
def RenderPaths (fileRoot : String) (b : BootEnv) (m : Machine) (w : World) :
    Except RErr (List String) × World :=
  renderPathsLoop fileRoot m b.Templates w

/-! ### Content rendering (RenderTemplates, lines 230-274) -/

/-- The write loop of `RenderTemplates` over (template, final path)
pairs: create the destination file (truncating any previous content),
render the content template into it, and on a content failure remove
the partially written file and stop with an error. -/
def renderLoop (m : Machine) :
    List (TemplateInfo × String) → World → Except RErr Unit × World
  | [], w => (Except.ok (), w)
  | (t, fp) :: rest, w =>
    match t.contentRun m with
    | Except.error _ =>
      (Except.error (RErr.contentRender t.Name),
       { w with fs := fsErase (fsSet w.fs fp "") fp,
                events := (w.events ++ [Ev.createFile fp]) ++ [Ev.removeFile fp] })
    | Except.ok s =>
      renderLoop m rest
        { w with fs := fsSet (fsSet w.fs fp "") fp s,
                 events := (w.events ++ [Ev.createFile fp]) ++ [Ev.renderContent t.Name] }

/-- The list of required parameters the machine does not supply, in
declaration order (the `missingParams` accumulation of lines
244-249). -/
def missingParams (b : BootEnv) (m : Machine) : List String :=
  b.RequiredParams.filter (fun p => (m.Params.lookup p).isNone)

/-- `RenderTemplates`: compile the templates, render all destination
paths, check required parameters, then write each rendered template to
its destination. -/
def RenderTemplates (fileRoot : String) (b : BootEnv) (m : Machine) (w : World) :
    Except RErr Unit × World :=
  match parseTemplates b with
  | Except.error e => (Except.error e, w)
  | Except.ok _ =>
    match RenderPaths fileRoot b m w with
    | (Except.error e, w1) => (Except.error e, w1)
    | (Except.ok ps, w1) =>
      if missingParams b m = [] then renderLoop m (b.Templates.zip ps) w1
      else (Except.error (RErr.missingRequiredParams b.Name m.Name (missingParams b m)), w1)

/-! ### Media preparation (explode_iso, lines 288-341) -/

/-- The canary marker path of `explode_iso`
(`PathFor("disk", "." + OS.Name + ".rebar_canary")`). -/
def canaryPath (fileRoot : String) (b : BootEnv) : String :=
  pathForDisk fileRoot b ("." ++ b.OS.Name ++ ".rebar_canary")

/-- The staged ISO path of `explode_iso`
(`filepath.Join(fileRoot, "isos", OS.IsoFile)`). -/
def isoPath (fileRoot : String) (b : BootEnv) : String :=
  goPathJoin [fileRoot, "isos", b.OS.IsoFile]

/-- Invocation of the external `/explode_iso.sh` script
(`exec.Command`): trace the call; success or failure is decided by the
world's extraction oracle.  The script's own effects (including
creating the canary marker) happen outside the modelled process. -/
def runExtract (fileRoot : String) (b : BootEnv) (iso : String) (w : World) :
    Except RErr Unit × World :=
  if w.extractOK then
    (Except.ok (),
     { w with events := w.events ++ [Ev.extractISO b.OS.Name iso (pathDir (canaryPath fileRoot b))] })
  else
    (Except.error RErr.extractFail,
     { w with events := w.events ++ [Ev.extractISO b.OS.Name iso (pathDir (canaryPath fileRoot b))] })

/-- `explode_iso`: skip unless the environment name ends in
"-install", an ISO file is configured, the canary marker is absent and
the ISO is staged; then, if a checksum is configured, hash the ISO and
abort on mismatch; finally invoke the external extraction script. -/
def explode_iso (fileRoot : String) (b : BootEnv) (w : World) :
    Except RErr Unit × World :=
  if ¬ strEndsWith b.Name "-install" then (Except.ok (), w)
  else if b.OS.IsoFile = "" then (Except.ok (), w)
  else if ((w.fs.lookup (canaryPath fileRoot b)).isSome) then (Except.ok (), w)
  else
    match w.fs.lookup (isoPath fileRoot b) with
    | none => (Except.ok (), w)
    | some iso =>
      if b.OS.IsoSha256 ≠ "" then
        if w.hashFn iso ≠ b.OS.IsoSha256 then
          (Except.error (RErr.checksumMismatch (isoPath fileRoot b) (w.hashFn iso) b.OS.IsoSha256),
           { w with events := w.events ++ [Ev.hashISO (isoPath fileRoot b)] })
        else
          runExtract fileRoot b (isoPath fileRoot b)
            { w with events := w.events ++ [Ev.hashISO (isoPath fileRoot b)] }
      else runExtract fileRoot b (isoPath fileRoot b) w

/-! ### Auxiliary file download (get_file / validate_file, lines 343-373) -/

/-- `get_file`: create (or truncate) the destination file, then stream
the remote URL into it.  On a download failure whatever was already
written stays in the file — it is not removed. -/
def get_file (fileRoot : String) (b : BootEnv) (f : FileData) (w : World) :
    Except RErr Unit × World :=
  match w.http f.URL with
  | HttpOutcome.ok body =>
    (Except.ok (),
     { w with
       fs := fsSet (fsSet w.fs (pathForDisk fileRoot b f.Name) "") (pathForDisk fileRoot b f.Name) body,
       events := w.events ++ [Ev.createFile (pathForDisk fileRoot b f.Name), Ev.httpGet f.URL] })
  | HttpOutcome.fail written =>
    (Except.error (RErr.fileFetchFail f.Name),
     { w with
       fs := fsSet (fsSet w.fs (pathForDisk fileRoot b f.Name) "") (pathForDisk fileRoot b f.Name) written,
       events := w.events ++ [Ev.createFile (pathForDisk fileRoot b f.Name), Ev.httpGet f.URL] })

/-- `validate_file`: the only validation performed is an existence
check of the resolved disk path. -/
def validate_file (fileRoot : String) (b : BootEnv) (f : FileData) (w : World) :
    Except RErr Unit :=
  if (w.fs.lookup (pathForDisk fileRoot b f.Name)).isSome then Except.ok ()
  else Except.error (RErr.validateFail (pathForDisk fileRoot b f.Name))

/-- The auxiliary-file loop of `onChange` (lines 410-419): for each
file, download it when validation fails, then validate again and abort
on a second failure. -/
def downloadFiles (fileRoot : String) (b : BootEnv) :
    List FileData → World → Except RErr Unit × World
  | [], w => (Except.ok (), w)
  | f :: rest, w =>
    match validate_file fileRoot b f w with
    | Except.ok _ => downloadFiles fileRoot b rest w
    | Except.error _ =>
      match get_file fileRoot b f w with
      | (Except.error e, w1) => (Except.error e, w1)
      | (Except.ok _, w1) =>
        match validate_file fileRoot b f w1 with
        | Except.error e => (Except.error e, w1)
        | Except.ok _ => downloadFiles fileRoot b rest w1

/-! ### Lifecycle hooks (onChange / onDelete, lines 375-494) -/

/-- The structural loop of `onChange` (lines 379-394): walk the
templates accumulating the pxelinux/elilo/ipxe flags, and stop with an
error at the first template with an empty name, path or UUID. -/
def structuralCheckLoop :
    List TemplateInfo → Bool × Bool × Bool → Except RErr (Bool × Bool × Bool)
  | [], fl => Except.ok fl
  | t :: rest, (px, el, ip) =>
    let fl := (px || t.Name == "pxelinux", el || t.Name == "elilo", ip || t.Name == "ipxe")
    if t.Name = "" ∨ t.Path = "" ∨ t.UUID = "" then Except.error (RErr.illegalTemplate t.Name)
    else structuralCheckLoop rest fl

/-- The initrd existence loop of `onChange` (lines 440-457); the
filesystem model contains only regular files, so the
`Mode().IsRegular()` test cannot fail. -/
def checkInitrds (fileRoot : String) (b : BootEnv) (w : World) :
    List String → Except RErr Unit
  | [] => Except.ok ()
  | i :: rest =>
    if (w.fs.lookup (pathForDisk fileRoot b i)).isNone then
      Except.error (RErr.missingInitrd b.Name i)
    else checkInitrds fileRoot b w rest

/-- The cascade loop of `onChange` (lines 469-476): re-render every
machine bound to the old environment name, stopping at the first
failure. -/
def cascadeLoop (fileRoot : String) (b : BootEnv) (oldName : String) :
    List Machine → World → Except RErr Unit × World
  | [], w => (Except.ok (), w)
  | m :: rest, w =>
    if m.BootEnv ≠ oldName then cascadeLoop fileRoot b oldName rest w
    else
      match RenderTemplates fileRoot b m w with
      | (Except.error e, w1) => (Except.error e, w1)
      | (Except.ok _, w1) => cascadeLoop fileRoot b oldName rest w1

/-- `onChange`: structural check, media extraction, auxiliary file
downloads, template compilation, kernel and initrd existence checks,
then — when updating a previously persisted environment — the
name-immutability guard and the cascade re-render of every bound
machine (the machine list is read from the record store). -/
def onChange (fileRoot : String) (b : BootEnv) (old : Option BootEnv) (w : World) :
    Except RErr Unit × World :=
  match structuralCheckLoop b.Templates (false, false, false) with
  | Except.error e => (Except.error e, w)
  | Except.ok (px, el, ip) =>
    if ¬ ip ∧ ¬ (px ∧ el) then (Except.error RErr.incompleteBootSupport, w)
    else
      match (if b.OS.IsoFile ≠ "" then explode_iso fileRoot b w else (Except.ok (), w)) with
      | (Except.error e, w1) => (Except.error e, w1)
      | (Except.ok _, w1) =>
        match downloadFiles fileRoot b b.OS.Files w1 with
        | (Except.error e, w2) => (Except.error e, w2)
        | (Except.ok _, w2) =>
          match parseTemplates b with
          | Except.error e => (Except.error e, w2)
          | Except.ok _ =>
            if b.Kernel ≠ "" ∧ (w2.fs.lookup (pathForDisk fileRoot b b.Kernel)).isNone then
              (Except.error (RErr.missingKernel b.Name b.Kernel), w2)
            else
              match checkInitrds fileRoot b w2 b.Initrds with
              | Except.error e => (Except.error e, w2)
              | Except.ok _ =>
                match old with
                | some o =>
                  if o.Name ≠ b.Name then (Except.error RErr.renameForbidden, w2)
                  else cascadeLoop fileRoot b o.Name w2.machines w2
                | none => (Except.ok (), w2)

/-- `onDelete`: refuse deletion while any machine record still names
this environment (the first offending machine is reported); succeed
otherwise.  The record store's `machine.List()` is modelled as an
infallible read of the world's machine records. -/
def onDelete (b : BootEnv) (w : World) : Except RErr Unit :=
  match w.machines.find? (fun m => m.BootEnv == b.Name) with
  | some m => Except.error (RErr.envInUse b.Name m.Name)
  | none => Except.ok ()

/-! ### Result and event discriminators -/

/-- Whether a result is a success. -/
def resultOk {ε α : Type} : Except ε α → Bool
  | Except.ok _ => true
  | Except.error _ => false

/-- Whether an error is the missing-required-parameters error. -/
def isMissingParamsErr {α : Type} : Except RErr α → Bool
  | Except.error (RErr.missingRequiredParams _ _ _) => true
  | _ => false

/-- Whether a result is the environment-in-use error. -/
def isEnvInUseErr {α : Type} : Except RErr α → Bool
  | Except.error (RErr.envInUse _ _) => true
  | _ => false

/-- Whether an event writes to (or removes from) the filesystem. -/
def Ev.writesFile : Ev → Bool
  | Ev.createFile _ => true
  | Ev.renderContent _ => true
  | Ev.removeFile _ => true
  | Ev.httpGet _ => true
  | _ => false

/-! ### Concrete fixtures used by witnesses and counterexamples -/

/-- Sample OS descriptor with a configured ISO and checksum. -/
def osW : OsInfo :=
  { Name := "osn", Family := "", Codename := "", Version := "",
    IsoFile := "x.iso", IsoSha256 := "good", IsoUrl := "", Files := [] }

/-- An always-rendering "ipxe" template (destination path "p"). -/
def tmplIpxe : TemplateInfo :=
  { Name := "ipxe", Path := "psrc", UUID := "u1", pathCompiles := true,
    pathRun := fun _ => Except.ok "p", contentOK := true,
    contentRun := fun _ => Except.ok "A" }

/-- Sample install environment requiring parameter "x". -/
def envW : BootEnv :=
  { Name := "osn-install", OS := osW, Templates := [tmplIpxe], Kernel := "",
    Initrds := [], BootParams := "", RequiredParams := ["x"],
    bootParamsCompiles := true, TenantId := 0 }

/-- A machine bound to `envW` supplying parameter "x". -/
def machW : Machine := { Name := "m1", BootEnv := "osn-install", Params := [("x", "1")] }

/-- A machine with no parameters, bound to no environment. -/
def machN : Machine := { Name := "m0", BootEnv := "", Params := [] }

/-- Base world: empty filesystem, `machW` in the record store, an HTTP
oracle that always fails after writing "tru", the identity function as
the hash oracle, and a succeeding extraction script. -/
def w0 : World :=
  { fs := [], events := [], machines := [machW],
    http := fun _ => HttpOutcome.fail "tru", hashFn := fun s => s, extractOK := true }

/-- World with the canary marker of `envW` already present. -/
def wCanary : World := { w0 with fs := [("r/osn/install/.osn.rebar_canary", "")] }

/-- World with the ISO of `envW` staged (content "body", which hashes
to "body" under the identity hash oracle, mismatching "good"). -/
def wIso : World := { w0 with fs := [("r/isos/x.iso", "body")] }

/-- Template "t1": path "p1", content renders to "A". -/
def tmplT1 : TemplateInfo :=
  { Name := "t1", Path := "p1src", UUID := "u1", pathCompiles := true,
    pathRun := fun _ => Except.ok "p1", contentOK := true,
    contentRun := fun _ => Except.ok "A" }

/-- Template "t2": path "p2", content rendering always fails. -/
def tmplT2 : TemplateInfo :=
  { Name := "t2", Path := "p2src", UUID := "u2", pathCompiles := true,
    pathRun := fun _ => Except.ok "p2", contentOK := true,
    contentRun := fun _ => Except.error () }

/-- Like `tmplT1` but with destination path "p". -/
def tmplT1p : TemplateInfo := { tmplT1 with pathRun := fun _ => Except.ok "p" }

/-- Like `tmplT2` but with destination path "p" (aliasing `tmplT1p`). -/
def tmplT2p : TemplateInfo := { tmplT2 with pathRun := fun _ => Except.ok "p" }

/-- Environment whose second template fails to render (distinct
destination paths), with no required parameters. -/
def envC1 : BootEnv := { envW with Templates := [tmplT1, tmplT2], RequiredParams := [] }

/-- Environment whose two templates share the destination path "p" and
whose second template fails to render. -/
def envAlias : BootEnv := { envW with Templates := [tmplT1p, tmplT2p], RequiredParams := [] }

/-- Template "t" whose path template fails at evaluation time. -/
def tmplPathFail : TemplateInfo :=
  { Name := "t", Path := "psrc", UUID := "u1", pathCompiles := true,
    pathRun := fun _ => Except.error (), contentOK := true,
    contentRun := fun _ => Except.ok "A" }

/-- Environment requiring "x" whose only template has a failing path
expression. -/
def envC2 : BootEnv := { envW with Templates := [tmplPathFail] }

/-- An illegal template: empty name. -/
def tmplIllegal : TemplateInfo :=
  { Name := "", Path := "psrc", UUID := "u1", pathCompiles := true,
    pathRun := fun _ => Except.ok "p", contentOK := true,
    contentRun := fun _ => Except.ok "A" }

/-- Environment with an illegal template and no "ipxe"/"pxelinux"/"elilo". -/
def envIllegal : BootEnv := { envW with Templates := [tmplIllegal] }

/-- A legal "pxelinux" template. -/
def tmplPxelinux : TemplateInfo := { tmplIpxe with Name := "pxelinux" }

/-- Legal environment providing only "pxelinux" (no "ipxe", no "elilo"). -/
def envPxOnly : BootEnv := { envW with Templates := [tmplPxelinux] }

/-- Environment identical to `envW` except its name lacks the
"-install" suffix, and with no required parameters. -/
def envNoInstall : BootEnv := { envW with Name := "osn", RequiredParams := [] }

/-- A machine bound to `envNoInstall`. -/
def machB : Machine := { Name := "m2", BootEnv := "osn", Params := [] }

/-- World for the C6 counterexample: ISO staged with mismatching
content, one machine bound to `envNoInstall`. -/
def wIsoB : World := { wIso with machines := [machB] }

/-- Environment with empty OS name (otherwise like `envW`). -/
def envEmptyOS : BootEnv := { envW with OS := { osW with Name := "" } }

/-- Sample auxiliary file. -/
def fdW : FileData :=
  { URL := "http://h/f", Name := "fname", ValidationURL := "", ValidationMethod := "" }

/-- Environment whose OS is the sentinel "discovery". -/
def envDiscovery : BootEnv := { envW with OS := { osW with Name := "discovery" } }

/-! ## Lemmas: filesystem primitives -/

theorem lookup_fsSet_self (fs : List (String × String)) (p v : String) :
    (fsSet fs p v).lookup p = some v := by
  simp [fsSet, List.lookup]

theorem lookup_fsSet_ne (fs : List (String × String)) (p v q : String) (h : q ≠ p) :
    (fsSet fs p v).lookup q = fs.lookup q := by
  simp [fsSet, List.lookup, beq_false_of_ne h]

theorem lookup_fsErase (fs : List (String × String)) (p q : String) :
    (fsErase fs p).lookup q = if q = p then none else fs.lookup q := by
  induction fs with
  | nil => simp [fsErase]
  | cons e t ih =>
    obtain ⟨a, b⟩ := e
    simp only [fsErase, List.filter_cons] at ih ⊢
    by_cases hap : a = p
    · subst hap
      have hcond : (!(a == a)) = false := by simp
      rw [hcond]
      simp only [Bool.false_eq_true, if_false]
      rw [ih]
      by_cases hqp : q = a
      · simp [hqp]
      · simp [hqp, List.lookup, beq_false_of_ne hqp]
    · have hcond : (!(a == p)) = true := by simp [beq_false_of_ne hap]
      rw [hcond]
      simp only [if_true]
      by_cases hqa : q = a
      · subst hqa
        have hqp : q ≠ p := hap
        simp [List.lookup, hqp]
      · simp only [List.lookup, beq_false_of_ne hqa]
        rw [ih]

theorem lookup_fsErase_self (fs : List (String × String)) (p : String) :
    (fsErase fs p).lookup p = none := by
  rw [lookup_fsErase]; simp

theorem fsSet_isSome_self (fs : List (String × String)) (p v : String) :
    ((fsSet fs p v).lookup p).isSome = true := by
  rw [lookup_fsSet_self]; rfl

theorem fsSet_isSome_mono (fs : List (String × String)) (p v q : String)
    (h : (fs.lookup q).isSome = true) : ((fsSet fs p v).lookup q).isSome = true := by
  by_cases hqp : q = p
  · subst hqp; exact fsSet_isSome_self fs q v
  · rw [lookup_fsSet_ne fs p v q hqp]; exact h

theorem fsErase_isSome_ne (fs : List (String × String)) (p q : String) (h : q ≠ p) :
    ((fsErase fs p).lookup q).isSome = (fs.lookup q).isSome := by
  rw [lookup_fsErase]; simp [h]

/-! ## Lemmas: path resolution -/

theorem pathClean_ne_empty (p : String) : pathClean p ≠ "" := by
  unfold pathClean
  split
  · decide
  · split
    · split
      · decide
      · intro hc
        have hd := congrArg String.data hc
        rw [String.data_append] at hd
        exact List.noConfusion hd
    · split
      · decide
      · intro hc
        exact absurd hc (by assumption)

theorem joinSlash_pair (a b : String) : joinSlash [a, b] = a ++ "/" ++ b := rfl

theorem joinSlash_triple (a b c : String) : joinSlash [a, b, c] = a ++ "/" ++ b ++ "/" ++ c := rfl

theorem goPathJoin_cons (a : String) (rest : List String) (h : a ≠ "") :
    goPathJoin (a :: rest) = pathClean (joinSlash (a :: rest)) := by
  unfold goPathJoin
  rw [List.dropWhile_cons]
  simp [beq_false_of_ne h]

theorem installSeg_ne_empty (b : BootEnv) : installSeg b ≠ "" := by
  unfold installSeg
  split
  · by_cases h : b.OS.Name = ""
    · rw [h]; decide
    · rw [goPathJoin_cons _ _ h]; exact pathClean_ne_empty _
  · have hd : b.OS.Name = "discovery" := by
      by_contra hne
      exact absurd hne (by assumption)
    rw [hd]; decide

/-! ## Lemmas: path rendering touches no file -/

theorem renderPathsLoop_world (fileRoot : String) (m : Machine) :
    ∀ (ts : List TemplateInfo) (w : World),
      ∃ evs : List Ev,
        (renderPathsLoop fileRoot m ts w).2 = { w with events := w.events ++ evs } ∧
        ∀ e ∈ evs, e.writesFile = false
  | [], w => ⟨[], by simp [renderPathsLoop], by simp⟩
  | t :: rest, w => by
    cases hc : t.pathRun m with
    | error e =>
      refine ⟨[Ev.renderPath t.Name], ?_, ?_⟩
      · unfold renderPathsLoop
        rw [hc]
      · intro e he
        rw [List.mem_singleton] at he
        rw [he]
        rfl
    | ok s =>
      obtain ⟨evs, hw, hall⟩ :=
        renderPathsLoop_world fileRoot m rest { w with events := w.events ++ [Ev.renderPath t.Name] }
      refine ⟨Ev.renderPath t.Name :: evs, ?_, ?_⟩
      · unfold renderPathsLoop
        rw [hc]
        cases hr : renderPathsLoop fileRoot m rest { w with events := w.events ++ [Ev.renderPath t.Name] } with
        | mk r w2 =>
          rw [hr] at hw
          cases r with
          | error e => simpa [List.append_assoc] using hw
          | ok ps => simpa [List.append_assoc] using hw
      · intro e he
        cases he with
        | head => rfl
        | tail _ hmem => exact hall e hmem

theorem RenderPaths_world (fileRoot : String) (b : BootEnv) (m : Machine) (w : World) :
    ∃ evs : List Ev,
      (RenderPaths fileRoot b m w).2 = { w with events := w.events ++ evs } ∧
      ∀ e ∈ evs, e.writesFile = false :=
  renderPathsLoop_world fileRoot m b.Templates w

/-! ## Claim C5 -/

/-- C5: for every boot environment, if the canary marker file already
exists at its deterministic disk path, `explode_iso` returns success
without invoking the external extraction procedure and without
performing checksum verification — the world (filesystem and trace)
is returned unchanged, so the extraction oracle is consulted at most
once across repeated calls once the marker exists. -/
theorem C5_canary_skips_extraction (fileRoot : String) (b : BootEnv) (w : World)
    (h : ((w.fs.lookup (canaryPath fileRoot b)).isSome) = true) :
    explode_iso fileRoot b w = (Except.ok (), w) := by
  unfold explode_iso
  split
  · rfl
  · split
    · rfl
    · rfl

/-- C5 witness: with the canary marker of `envW` on disk, a call (and
hence also a second call on the returned world) performs no extraction
and no hashing. -/
theorem C5_witness : explode_iso "r" envW wCanary = (Except.ok (), wCanary) :=
  C5_canary_skips_extraction "r" envW wCanary (by decide)

/-! ## Claim C7 -/

/-- C7: `onDelete` succeeds exactly when no machine record references
the environment by name, and returns the environment-in-use error
whenever at least one machine does. -/
theorem C7_onDelete_guard (b : BootEnv) (w : World) :
    (onDelete b w = Except.ok () ↔ ∀ m ∈ w.machines, m.BootEnv ≠ b.Name) ∧
    ((∃ m ∈ w.machines, m.BootEnv = b.Name) → isEnvInUseErr (onDelete b w) = true) := by
  constructor
  · constructor
    · intro hok m hm hbe
      unfold onDelete at hok
      cases hf : w.machines.find? (fun x => x.BootEnv == b.Name) with
      | some x => rw [hf] at hok; exact Except.noConfusion hok
      | none =>
        have hnone := List.find?_eq_none.mp hf m hm
        simp [hbe] at hnone
    · intro hall
      unfold onDelete
      cases hf : w.machines.find? (fun x => x.BootEnv == b.Name) with
      | some x =>
        have hx := List.find?_some hf
        have hmem := List.mem_of_find?_eq_some hf
        rw [beq_iff_eq] at hx
        exact absurd hx (hall x hmem)
      | none => rfl
  · rintro ⟨m, hm, hbe⟩
    unfold onDelete
    cases hf : w.machines.find? (fun x => x.BootEnv == b.Name) with
    | some x => rfl
    | none =>
      have hnone := List.find?_eq_none.mp hf m hm
      simp [hbe] at hnone

/-- C7 witness: deleting `envW` is refused while `machW` (bound to it)
is in the store, and succeeds with no machines in the store. -/
theorem C7_witness :
    isEnvInUseErr (onDelete envW w0) = true ∧
    onDelete envW { w0 with machines := [] } = Except.ok () := by
  constructor
  · exact (C7_onDelete_guard envW w0).2 ⟨machW, by decide, by decide⟩
  · exact (C7_onDelete_guard envW { w0 with machines := [] }).1.mpr (by simp)

/-! ## Claim C8 -/

/-- C8 counterexample: the claim maps the protocol tag "network" to
the retrieval URL, but the code's third protocol tag is "http"; the
tag "network" hits the fatal default branch of `PathFor` and produces
no path at all, at this concrete input as everywhere. -/
theorem C8_counterexample :
    PathFor "r" "u" envW "network" "kernel" = none ∧
    PathFor "r" "u" envW "http" "kernel" = some "u/osn/install/kernel" := by
  constructor
  · decide
  · decide

/-- C8 (amended): for every partial path f and non-empty root,
`PathFor` maps "disk" to the cleaned path root/OS-install-segment/f,
"tftp" to the cleaned OS-install-segment/f with no root prefix, and
"http" (not "network") to the base retrieval URL ++ "/" ++ the cleaned
OS-install-segment/f. -/
theorem C8_PathFor_shapes (fileRoot provisionerURL : String) (b : BootEnv) (f : String)
    (hroot : fileRoot ≠ "") :
    PathFor fileRoot provisionerURL b "disk" f
      = some (pathClean (fileRoot ++ "/" ++ installSeg b ++ "/" ++ f)) ∧
    PathFor fileRoot provisionerURL b "tftp" f
      = some (pathClean (installSeg b ++ "/" ++ f)) ∧
    PathFor fileRoot provisionerURL b "http" f
      = some (provisionerURL ++ "/" ++ pathClean (installSeg b ++ "/" ++ f)) := by
  refine ⟨?_, ?_, ?_⟩
  · show some (goPathJoin [fileRoot, installSeg b, f]) = _
    rw [goPathJoin_cons _ _ hroot, joinSlash_triple]
  · show some (goPathJoin [installSeg b, f]) = _
    rw [goPathJoin_cons _ _ (installSeg_ne_empty b), joinSlash_pair]
  · show some (provisionerURL ++ "/" ++ goPathJoin [installSeg b, f]) = _
    rw [goPathJoin_cons _ _ (installSeg_ne_empty b), joinSlash_pair]

/-- C8 witness: the three shapes at the concrete root "r", URL "u",
environment `envW` and partial path "k". -/
theorem C8_witness :
    PathFor "r" "u" envW "disk" "k"
      = some (pathClean ("r" ++ "/" ++ installSeg envW ++ "/" ++ "k")) ∧
    PathFor "r" "u" envW "tftp" "k"
      = some (pathClean (installSeg envW ++ "/" ++ "k")) ∧
    PathFor "r" "u" envW "http" "k"
      = some ("u" ++ "/" ++ pathClean (installSeg envW ++ "/" ++ "k")) :=
  C8_PathFor_shapes "r" "u" envW "k" (by decide)

/-! ## Claim C9 -/

/-- C9 counterexample: for the empty OS name (not "discovery"), the
claim's formula "OS-name/install" denotes "/install", but the code's
segment is "install" — `path.Join` drops the empty leading element
before cleaning. -/
theorem C9_counterexample :
    envEmptyOS.OS.Name ≠ "discovery" ∧
    installSeg envEmptyOS = "install" ∧
    pathClean (envEmptyOS.OS.Name ++ "/install") = "/install" ∧
    ("install" : String) ≠ "/install" := by
  refine ⟨by decide, by decide, by decide, by decide⟩

/-- C9 (amended): the OS-install segment omits the "install"
subdirectory exactly for the sentinel OS name "discovery"; for every
other non-empty OS name it is the cleaned path OS-name/install, and
for the empty OS name it is "install". -/
theorem C9_installSeg_shape (b : BootEnv) :
    (b.OS.Name = "discovery" → installSeg b = b.OS.Name) ∧
    (b.OS.Name ≠ "discovery" → b.OS.Name = "" → installSeg b = "install") ∧
    (b.OS.Name ≠ "discovery" → b.OS.Name ≠ "" →
      installSeg b = pathClean (b.OS.Name ++ "/install")) := by
  refine ⟨?_, ?_, ?_⟩
  · intro h
    unfold installSeg
    rw [h]
    simp
  · intro _ h2
    unfold installSeg
    rw [h2]
    decide
  · intro h1 h2
    unfold installSeg
    rw [if_pos h1, goPathJoin_cons _ _ h2, joinSlash_pair]
    congr 1
    rw [String.append_assoc]
    rw [show ("/" : String) ++ "install" = "/install" from by decide]

/-- C9 witness: the "discovery" case at `envDiscovery` and the general
case at `envW` (OS name "osn"). -/
theorem C9_witness :
    installSeg envDiscovery = envDiscovery.OS.Name ∧
    installSeg envW = pathClean (envW.OS.Name ++ "/install") := by
  constructor
  · exact (C9_installSeg_shape envDiscovery).1 (by decide)
  · exact (C9_installSeg_shape envW).2.2 (by decide) (by decide)

/-! ## Claim C10 -/

/-- C10 (implicit behavior): if `get_file` creates the destination
file but the download fails, the created (possibly empty or truncated)
file is left in place; `validate_file`, which only checks existence,
then succeeds, so the file loop of a later `onChange` treats the file
as valid and performs no further download (the world is returned
untouched by `downloadFiles`). -/
theorem C10_failed_download_leaves_file (fileRoot : String) (b : BootEnv) (f : FileData)
    (w : World) (written : String) (h : w.http f.URL = HttpOutcome.fail written) :
    (get_file fileRoot b f w).1 = Except.error (RErr.fileFetchFail f.Name) ∧
    ((get_file fileRoot b f w).2).fs.lookup (pathForDisk fileRoot b f.Name) = some written ∧
    validate_file fileRoot b f ((get_file fileRoot b f w).2) = Except.ok () ∧
    downloadFiles fileRoot b [f] ((get_file fileRoot b f w).2) =
      (Except.ok (), (get_file fileRoot b f w).2) := by
  have hlook : ((get_file fileRoot b f w).2).fs.lookup (pathForDisk fileRoot b f.Name)
      = some written := by
    unfold get_file
    rw [h]
    exact lookup_fsSet_self _ _ _
  have hv : validate_file fileRoot b f ((get_file fileRoot b f w).2) = Except.ok () := by
    unfold validate_file
    rw [hlook]
    rfl
  refine ⟨?_, hlook, hv, ?_⟩
  · unfold get_file
    rw [h]
  · unfold downloadFiles
    rw [hv]
    rfl

/-- C10 witness: the concrete file `fdW` under the failing HTTP oracle
of `w0` (which writes "tru" before failing). -/
theorem C10_witness :
    (get_file "r" envW fdW w0).1 = Except.error (RErr.fileFetchFail "fname") ∧
    ((get_file "r" envW fdW w0).2).fs.lookup (pathForDisk "r" envW "fname") = some "tru" ∧
    validate_file "r" envW fdW ((get_file "r" envW fdW w0).2) = Except.ok () ∧
    downloadFiles "r" envW [fdW] ((get_file "r" envW fdW w0).2) =
      (Except.ok (), (get_file "r" envW fdW w0).2) :=
  C10_failed_download_leaves_file "r" envW fdW w0 "tru" rfl

/-! ## Claim C2 -/

/-- C2 counterexample: the machine `machN` lacks the required
parameter "x" of `envC2`, yet `RenderTemplates` returns the
path-rendering error of template "t", not the
missing-required-parameters error, because path rendering runs before
the required-parameter check.  (No file is created, as the claim also
asserts.) -/
theorem C2_counterexample :
    ("x" ∈ envC2.RequiredParams ∧ (machN.Params.lookup "x").isNone = true) ∧
    (RenderTemplates "r" envC2 machN w0).1 = Except.error (RErr.pathRender "t") ∧
    isMissingParamsErr (RenderTemplates "r" envC2 machN w0).1 = false ∧
    ((RenderTemplates "r" envC2 machN w0).2).fs = w0.fs := by
  refine ⟨by decide, by decide, by decide, by decide⟩

/-- C2 (amended): for every machine lacking at least one required
parameter, provided the environment's templates compile and load and
its path expressions render successfully for that machine,
`RenderTemplates` returns the missing-required-parameters error naming
the environment, the machine and every missing key, and the
filesystem is unchanged (no destination file or other artifact is
created). -/
theorem C2_missing_params_abort (fileRoot : String) (b : BootEnv) (m : Machine) (w : World)
    (hparse : parseTemplates b = Except.ok ())
    (hpaths : resultOk (RenderPaths fileRoot b m w).1 = true)
    (hmiss : missingParams b m ≠ []) :
    (RenderTemplates fileRoot b m w).1
      = Except.error (RErr.missingRequiredParams b.Name m.Name (missingParams b m)) ∧
    ((RenderTemplates fileRoot b m w).2).fs = w.fs := by
  have heq : RenderTemplates fileRoot b m w
      = (Except.error (RErr.missingRequiredParams b.Name m.Name (missingParams b m)),
         (RenderPaths fileRoot b m w).2) := by
    unfold RenderTemplates
    rw [hparse]
    cases hr : RenderPaths fileRoot b m w with
    | mk r w1 =>
      cases r with
      | error e =>
        rw [hr] at hpaths
        simp [resultOk] at hpaths
      | ok ps =>
        dsimp only
        rw [if_neg hmiss]
  rw [heq]
  obtain ⟨evs, hw, -⟩ := RenderPaths_world fileRoot b m w
  exact ⟨rfl, by rw [hw]⟩

/-- C2 witness: `envW` (templates compile, paths render) and the
parameterless machine `machN`. -/
theorem C2_witness :
    (RenderTemplates "r" envW machN w0).1
      = Except.error (RErr.missingRequiredParams envW.Name machN.Name (missingParams envW machN)) ∧
    ((RenderTemplates "r" envW machN w0).2).fs = w0.fs :=
  C2_missing_params_abort "r" envW machN w0 rfl (by decide) (by decide)

/-! ## Claim C3 -/

/-- C3 counterexample: the machine `machN` lacks the required
parameter "x" of `envW`, so the Parameter Validator fails (the call
returns the missing-required-parameters error) — yet the path
expression of template "ipxe" was rendered, as the trace shows: path
rendering runs before required-parameter validation, contradicting the
claim that paths are rendered only after the validator has passed. -/
theorem C3_counterexample :
    ("x" ∈ envW.RequiredParams ∧ (machN.Params.lookup "x").isNone = true) ∧
    (RenderTemplates "r" envW machN w0).1
      = Except.error (RErr.missingRequiredParams "osn-install" "m0" ["x"]) ∧
    Ev.renderPath "ipxe" ∈ ((RenderTemplates "r" envW machN w0).2).events := by
  refine ⟨by decide, by decide, by decide⟩

/-- C3 (amended): path expressions are rendered before
required-parameter validation; what validation does guard is the write
phase: for every machine lacking a required parameter,
`RenderTemplates` fails, the filesystem is unchanged, and no
file-writing event (create, content-render, remove, download) occurs
— only path-render events are traced. -/
theorem C3_validation_guards_writes (fileRoot : String) (b : BootEnv) (m : Machine) (w : World)
    (hmiss : missingParams b m ≠ []) :
    resultOk (RenderTemplates fileRoot b m w).1 = false ∧
    ((RenderTemplates fileRoot b m w).2).fs = w.fs ∧
    (((RenderTemplates fileRoot b m w).2).events.drop w.events.length).all
      (fun e => !e.writesFile) = true := by
  unfold RenderTemplates
  cases hp : parseTemplates b with
  | error e =>
    refine ⟨rfl, rfl, ?_⟩
    rw [List.drop_length]
    rfl
  | ok u =>
    cases hr : RenderPaths fileRoot b m w with
    | mk r w1 =>
      obtain ⟨evs, hw, hall⟩ := RenderPaths_world fileRoot b m w
      rw [hr] at hw
      dsimp only at hw
      have hdrop : w1.events.drop w.events.length = evs := by
        rw [hw]
        exact List.drop_left _ _
      have hallb : evs.all (fun e => !e.writesFile) = true :=
        List.all_eq_true.mpr (fun e he => by rw [hall e he]; rfl)
      cases r with
      | error e =>
        refine ⟨rfl, by rw [hw], ?_⟩
        rw [hdrop]
        exact hallb
      | ok ps =>
        dsimp only
        rw [if_neg hmiss]
        refine ⟨rfl, by rw [hw], ?_⟩
        rw [hdrop]
        exact hallb

/-- C3 witness: `envW` and the parameterless machine `machN` under
the empty filesystem of `w0`. -/
theorem C3_witness :
    resultOk (RenderTemplates "r" envW machN w0).1 = false ∧
    ((RenderTemplates "r" envW machN w0).2).fs = w0.fs ∧
    (((RenderTemplates "r" envW machN w0).2).events.drop w0.events.length).all
      (fun e => !e.writesFile) = true :=
  C3_validation_guards_writes "r" envW machN w0 (by decide)

/-! ## Claim C4 -/

/-- When every template is structurally legal, the structural loop
succeeds and its flags record which of the special template names
occur. -/
theorem structuralCheckLoop_ok :
    ∀ (ts : List TemplateInfo) (px el ip : Bool),
      (∀ t ∈ ts, t.Name ≠ "" ∧ t.Path ≠ "" ∧ t.UUID ≠ "") →
      structuralCheckLoop ts (px, el, ip) =
        Except.ok (px || ts.any (fun t => t.Name == "pxelinux"),
                   el || ts.any (fun t => t.Name == "elilo"),
                   ip || ts.any (fun t => t.Name == "ipxe"))
  | [], px, el, ip, _ => by simp [structuralCheckLoop]
  | t :: rest, px, el, ip, hleg => by
    obtain ⟨hn, hp, hu⟩ := hleg t (List.mem_cons_self t rest)
    unfold structuralCheckLoop
    rw [if_neg (by simp [hn, hp, hu])]
    rw [structuralCheckLoop_ok rest _ _ _ (fun x hx => hleg x (List.mem_cons_of_mem t hx))]
    simp [List.any_cons, Bool.or_assoc]

/-- C4 counterexample: `envIllegal` has no "ipxe" and no "pxelinux"
template, so the claim's premise holds, but because its only template
has an empty name, `onChange` returns the illegal-template error, not
`IncompleteBootSupportError` — the per-template legality check
precedes the boot-support check and names a different error. -/
theorem C4_counterexample :
    (envIllegal.Templates.any (fun t => t.Name == "ipxe") = false ∧
     envIllegal.Templates.any (fun t => t.Name == "pxelinux") = false) ∧
    (onChange "r" envIllegal none w0).1 = Except.error (RErr.illegalTemplate "") ∧
    (onChange "r" envIllegal none w0).1 ≠ Except.error RErr.incompleteBootSupport := by
  refine ⟨by decide, by decide, by decide⟩

/-- C4 (amended): for every boot environment whose templates are all
structurally legal (non-empty name, path and UUID) but whose template
set has no "ipxe" template and lacks "pxelinux" or "elilo", `onChange`
returns `IncompleteBootSupportError` with the world unchanged — no
file is written and neither media extraction nor download nor
rendering happens. -/
theorem C4_incomplete_boot_abort (fileRoot : String) (b : BootEnv) (old : Option BootEnv)
    (w : World)
    (hleg : ∀ t ∈ b.Templates, t.Name ≠ "" ∧ t.Path ≠ "" ∧ t.UUID ≠ "")
    (hipxe : b.Templates.any (fun t => t.Name == "ipxe") = false)
    (hmiss : b.Templates.any (fun t => t.Name == "pxelinux") = false ∨
             b.Templates.any (fun t => t.Name == "elilo") = false) :
    onChange fileRoot b old w = (Except.error RErr.incompleteBootSupport, w) := by
  unfold onChange
  rw [structuralCheckLoop_ok b.Templates false false false hleg]
  dsimp only
  rw [if_pos ?_]
  constructor
  · simp [hipxe]
  · rcases hmiss with h | h <;> simp [h]

/-- C4 witness: `envPxOnly` provides only a "pxelinux" template. -/
theorem C4_witness :
    onChange "r" envPxOnly none w0 = (Except.error RErr.incompleteBootSupport, w0) :=
  C4_incomplete_boot_abort "r" envPxOnly none w0 (by decide) (by decide) (Or.inr (by decide))

/-! ## Claim C6 -/

/-- C6 counterexample: `envNoInstall` has a configured checksum, its
staged ISO's hash ("body") mismatches the configured value ("good"),
and machine `machB` is bound to it — yet `onChange` succeeds and
renders the bound machine's template (a render event occurs), because
`explode_iso` silently skips every environment whose name does not end
in "-install" and never reaches the checksum comparison. -/
theorem C6_counterexample :
    envNoInstall.OS.IsoSha256 ≠ "" ∧
    wIsoB.fs.lookup (isoPath "r" envNoInstall) = some "body" ∧
    wIsoB.hashFn "body" ≠ envNoInstall.OS.IsoSha256 ∧
    machB.BootEnv = envNoInstall.Name ∧
    (onChange "r" envNoInstall (some envNoInstall) wIsoB).1 = Except.ok () ∧
    Ev.renderContent "ipxe" ∈ ((onChange "r" envNoInstall (some envNoInstall) wIsoB).2).events := by
  refine ⟨by decide, by decide, by decide, by decide, by decide, by decide⟩

/-- C6 (amended): for every structurally valid boot environment whose
name ends in "-install", with a configured ISO file and checksum, no
canary marker, and a staged ISO whose hash differs from the configured
checksum, `onChange` aborts with the checksum-mismatch error before
any download or any template rendering for any bound machine: the
filesystem is unchanged and the only new event is the ISO hashing. -/
theorem C6_checksum_aborts_onChange (fileRoot : String) (b : BootEnv) (old : Option BootEnv)
    (w : World) (c : String)
    (hname : strEndsWith b.Name "-install" = true)
    (hiso : b.OS.IsoFile ≠ "")
    (hcanary : w.fs.lookup (canaryPath fileRoot b) = none)
    (hstaged : w.fs.lookup (isoPath fileRoot b) = some c)
    (hsha : b.OS.IsoSha256 ≠ "")
    (hbad : w.hashFn c ≠ b.OS.IsoSha256)
    (hleg : ∀ t ∈ b.Templates, t.Name ≠ "" ∧ t.Path ≠ "" ∧ t.UUID ≠ "")
    (hboot : b.Templates.any (fun t => t.Name == "ipxe") = true ∨
             (b.Templates.any (fun t => t.Name == "pxelinux") = true ∧
              b.Templates.any (fun t => t.Name == "elilo") = true)) :
    onChange fileRoot b old w =
      (Except.error (RErr.checksumMismatch (isoPath fileRoot b) (w.hashFn c) b.OS.IsoSha256),
       { w with events := w.events ++ [Ev.hashISO (isoPath fileRoot b)] }) := by
  have hexp : explode_iso fileRoot b w =
      (Except.error (RErr.checksumMismatch (isoPath fileRoot b) (w.hashFn c) b.OS.IsoSha256),
       { w with events := w.events ++ [Ev.hashISO (isoPath fileRoot b)] }) := by
    unfold explode_iso
    rw [if_neg (show ¬¬ strEndsWith b.Name "-install" = true by simp [hname])]
    rw [if_neg hiso]
    rw [if_neg (show ¬ ((w.fs.lookup (canaryPath fileRoot b)).isSome) = true by
      simp [hcanary])]
    rw [hstaged]
    dsimp only
    rw [if_pos hsha, if_pos hbad]
  unfold onChange
  rw [structuralCheckLoop_ok b.Templates false false false hleg]
  dsimp only
  rw [if_neg (by
    rcases hboot with h | ⟨h1, h2⟩
    · simp [h]
    · simp [h1, h2])]
  rw [if_pos hiso, hexp]

/-- C6 witness: `envW` ("osn-install") with its ISO staged in `wIso`
hashing to "body" against the configured checksum "good". -/
theorem C6_witness :
    onChange "r" envW none wIso =
      (Except.error
        (RErr.checksumMismatch (isoPath "r" envW) (wIso.hashFn "body") envW.OS.IsoSha256),
       { wIso with events := wIso.events ++ [Ev.hashISO (isoPath "r" envW)] }) :=
  C6_checksum_aborts_onChange "r" envW none wIso "body" (by decide) (by decide) (by decide)
    (by decide) (by decide) (by decide) (by decide) (Or.inl (by decide))

/-! ## Claim C1 -/

/-- If the content templates before index k all render and the one at
k fails, the write loop stops with the content-render error of
template k, template k's destination file does not exist afterwards,
and every other path that was written earlier in the loop (or already
held a file) still holds a file. -/
theorem renderLoop_fail (m : Machine) :
    ∀ (L : List (TemplateInfo × String)) (w : World) (k : Nat) (hk : k < L.length),
      (∀ j (hj : j < k), resultOk ((L.get ⟨j, Nat.lt_trans hj hk⟩).1.contentRun m) = true) →
      resultOk ((L.get ⟨k, hk⟩).1.contentRun m) = false →
      (renderLoop m L w).1 = Except.error (RErr.contentRender (L.get ⟨k, hk⟩).1.Name) ∧
      ((renderLoop m L w).2).fs.lookup (L.get ⟨k, hk⟩).2 = none ∧
      (∀ p, p ≠ (L.get ⟨k, hk⟩).2 →
        (p ∈ (L.take k).map (fun e => e.2) ∨ (w.fs.lookup p).isSome = true) →
        (((renderLoop m L w).2).fs.lookup p).isSome = true)
  | [], _, k, hk, _, _ => absurd hk (Nat.not_lt_zero k)
  | (t, fp) :: rest, w, 0, hk, _, hfail => by
    have hfail' : resultOk (t.contentRun m) = false := hfail
    cases hc : t.contentRun m with
    | ok s =>
      rw [hc] at hfail'
      simp [resultOk] at hfail'
    | error e =>
      unfold renderLoop
      rw [hc]
      dsimp only
      refine ⟨rfl, lookup_fsErase_self _ _, ?_⟩
      intro p hne hmem
      have hne' : p ≠ fp := hne
      cases hmem with
      | inl h => simp at h
      | inr h =>
        rw [fsErase_isSome_ne _ _ _ hne']
        exact fsSet_isSome_mono _ _ _ _ h
  | (t, fp) :: rest, w, Nat.succ k, hk, hok, hfail => by
    have h0 : resultOk (t.contentRun m) = true := hok 0 (Nat.succ_pos k)
    cases hc : t.contentRun m with
    | error e =>
      rw [hc] at h0
      simp [resultOk] at h0
    | ok s =>
      unfold renderLoop
      rw [hc]
      dsimp only
      have hk' : k < rest.length := Nat.lt_of_succ_lt_succ hk
      have hok' : ∀ j (hj : j < k),
          resultOk ((rest.get ⟨j, Nat.lt_trans hj hk'⟩).1.contentRun m) = true :=
        fun j hj => hok (j + 1) (Nat.succ_lt_succ hj)
      obtain ⟨h1, h2, h3⟩ :=
        renderLoop_fail m rest
          { w with fs := fsSet (fsSet w.fs fp "") fp s,
                   events := (w.events ++ [Ev.createFile fp]) ++ [Ev.renderContent t.Name] }
          k hk' hok' hfail
      refine ⟨h1, h2, ?_⟩
      intro p hne hmem
      apply h3 p hne
      cases hmem with
      | inl hmemtake =>
        rw [List.take_succ_cons, List.map_cons] at hmemtake
        cases hmemtake with
        | head => exact Or.inr (fsSet_isSome_self _ _ _)
        | tail _ hm => exact Or.inl hm
      | inr hsome =>
        exact Or.inr (fsSet_isSome_mono _ _ _ _ (fsSet_isSome_mono _ _ _ _ hsome))

/-- C1 counterexample: in `envAlias` both templates resolve to the
same destination "r/p"; template "t1" renders successfully, then
template "t2" fails and its cleanup removes "r/p" — which is also the
destination file of the sibling processed before it, so that sibling's
file IS removed, contradicting the claim's "siblings are not removed"
for this input. -/
theorem C1_counterexample :
    (RenderPaths "r" envAlias machN w0).1 = Except.ok ["r/p", "r/p"] ∧
    (RenderTemplates "r" envAlias machN w0).1 = Except.error (RErr.contentRender "t2") ∧
    ((RenderTemplates "r" envAlias machN w0).2).fs.lookup "r/p" = none := by
  refine ⟨by decide, by decide, by decide⟩

/-- C1 (amended): if template compilation, path rendering and the
required-parameter check succeed, the templates before index k render
and the content template at k fails, then `RenderTemplates` returns
the content-render error of template k, the destination file of
template k does not exist afterwards, and the destination file of
every sibling processed before k whose destination path differs from
template k's path still exists (siblings are not rolled back; a
sibling sharing template k's path loses its file with it). -/
theorem C1_content_failure_cleanup (fileRoot : String) (b : BootEnv) (m : Machine) (w : World)
    (ps : List String) (w1 : World) (k : Nat)
    (hparse : parseTemplates b = Except.ok ())
    (hpaths : RenderPaths fileRoot b m w = (Except.ok ps, w1))
    (hmiss : missingParams b m = [])
    (hk : k < (b.Templates.zip ps).length)
    (hok : ∀ j (hj : j < k),
      resultOk (((b.Templates.zip ps).get ⟨j, Nat.lt_trans hj hk⟩).1.contentRun m) = true)
    (hfail : resultOk (((b.Templates.zip ps).get ⟨k, hk⟩).1.contentRun m) = false) :
    (RenderTemplates fileRoot b m w).1
      = Except.error (RErr.contentRender ((b.Templates.zip ps).get ⟨k, hk⟩).1.Name) ∧
    ((RenderTemplates fileRoot b m w).2).fs.lookup ((b.Templates.zip ps).get ⟨k, hk⟩).2
      = none ∧
    (∀ j (hj : j < k),
      ((b.Templates.zip ps).get ⟨j, Nat.lt_trans hj hk⟩).2
          ≠ ((b.Templates.zip ps).get ⟨k, hk⟩).2 →
      (((RenderTemplates fileRoot b m w).2).fs.lookup
        (((b.Templates.zip ps).get ⟨j, Nat.lt_trans hj hk⟩).2)).isSome = true) := by
  have hrt : RenderTemplates fileRoot b m w = renderLoop m (b.Templates.zip ps) w1 := by
    unfold RenderTemplates
    rw [hparse, hpaths]
    dsimp only
    rw [if_pos hmiss]
  obtain ⟨h1, h2, h3⟩ := renderLoop_fail m (b.Templates.zip ps) w1 k hk hok hfail
  rw [hrt]
  refine ⟨h1, h2, ?_⟩
  intro j hj hne
  apply h3 _ hne
  left
  have hj2 : j < ((b.Templates.zip ps).take k).length := by
    rw [List.length_take]
    exact lt_min hj (Nat.lt_trans hj hk)
  have hget : ((b.Templates.zip ps).take k).get ⟨j, hj2⟩
      = (b.Templates.zip ps).get ⟨j, Nat.lt_trans hj hk⟩ := by
    simp [List.get_eq_getElem, List.getElem_take]
  rw [← hget]
  exact List.mem_map.mpr ⟨_, List.get_mem _ _ hj2, rfl⟩

/-- C1 witness: in `envC1` template "t1" (path "r/p1") renders, then
template "t2" (path "r/p2") fails: the call errors, "r/p2" does not
exist, "r/p1" still does. -/
theorem C1_witness :
    (RenderTemplates "r" envC1 machN w0).1 = Except.error (RErr.contentRender "t2") ∧
    ((RenderTemplates "r" envC1 machN w0).2).fs.lookup "r/p2" = none ∧
    (((RenderTemplates "r" envC1 machN w0).2).fs.lookup "r/p1").isSome = true := by
  have hk : 1 < (envC1.Templates.zip ["r/p1", "r/p2"]).length := by decide
  have hok : ∀ j (hj : j < 1),
      resultOk (((envC1.Templates.zip ["r/p1", "r/p2"]).get
        ⟨j, Nat.lt_trans hj hk⟩).1.contentRun machN) = true := by
    intro j hj
    have hj0 : j = 0 := Nat.lt_one_iff.mp hj
    subst hj0
    rfl
  obtain ⟨h1, h2, h3⟩ :=
    C1_content_failure_cleanup "r" envC1 machN w0 ["r/p1", "r/p2"]
      ((RenderPaths "r" envC1 machN w0).2) 1 rfl rfl rfl hk hok rfl
  refine ⟨h1, h2, ?_⟩
  refine h3 0 (by decide) ?_
  show ("r/p1" : String) ≠ "r/p2"
  decide

end Provisioner
